import Mathlib

/-!
Verification development for the MK signal bot backend (`app.py`).

Shallow-embedding conventions, used throughout this file:

* Python floats are modelled as exact rationals (`ℚ`).  All numeric code in
  the repository uses only field arithmetic and comparisons, except for one
  call to `math.sqrt` inside the Bollinger-band computation; since a real
  square root is not rational, the square-root function is taken as an
  explicit parameter (`sqrt : ℚ → ℚ`) of the definitions that need it, and
  every theorem whose truth could depend on the square root is either
  quantified over all `sqrt` or instantiated at the executable rational
  approximation `ratSqrt` defined below.
* `datetime` values are modelled as rational timestamps (seconds); the
  code only ever compares them and adds fixed offsets.
* Display strings ("✅ WIN", "⏳ WAITING", "Data Error", …) are modelled as
  inductive types with one constructor per distinct string the code can
  store in the corresponding field.
* `print` calls are logging and are modelled as no-ops (the specification
  explicitly scopes logging/formatting out of the core).
* Human-readable `reason` strings carried in the signal records are
  display-only data; they are dropped from the records.
* Network I/O (`requests.get`) is modelled by oracle parameters that give,
  for each query, the list of candles the gateway would parse out of the
  response (`none` for every failure mode that makes the code fall through
  to the next API key / the data-error path).
* The Python dict key `"open"` becomes the field name `open_p`
  (`open` is a Lean keyword); all other field names follow the source.
-/

attribute [local semireducible] Rat.add Rat.mul Rat.sub Rat.inv

/-- Signal direction, the `"UP" | "DOWN" | "NONE"` strings of the source. -/
inductive Dir
  | UP
  | DOWN
  | NONE
deriving DecidableEq, Repr

/-- Confidence tier strings `"LOW" | "MEDIUM" | "HIGH" | "N/A"`. -/
inductive Conf
  | LOW
  | MEDIUM
  | HIGH
  | NA
deriving DecidableEq, Repr

/-- One OHLCV candle (the dicts built by `fetch_twelvedata_candles`).
The `datetime` string field is display-only and dropped. -/
structure Candle where
  open_p : ℚ
  high : ℚ
  low : ℚ
  close : ℚ
  volume : ℚ
deriving DecidableEq, Repr

/-- One Heikin-Ashi candle (the dicts built by `get_heikin_ashi_candles`). -/
structure HACandle where
  open_p : ℚ
  high : ℚ
  low : ℚ
  close : ℚ
deriving DecidableEq, Repr

/-- Inner loop of `calculate_ema` (lines 80–82 of `app.py`): each value is
`price * sf + previous * (1 - sf)`. -/
def emaLoop (sf : ℚ) : ℚ → List ℚ → List ℚ
  | _, [] => []
  | prev, p :: rest =>
      let e := p * sf + prev * (1 - sf)
      e :: emaLoop sf e rest

/-- `calculate_ema(prices, period)`: seed with the SMA of the first `period`
prices, then apply the smoothing recurrence; empty/short input gives `[]`. -/
def calculate_ema (prices : List ℚ) (period : ℕ) : List ℚ :=
  if prices = [] ∨ prices.length < period then []
  else if period = 0 then []
  else
    let sma := (prices.take period).sum / (period : ℚ)
    sma :: emaLoop (2 / ((period : ℚ) + 1)) sma (prices.drop period)

/-- Successive differences `prices[i] - prices[i-1]` (lines 93–98). -/
def priceChanges : List ℚ → List ℚ
  | a :: b :: rest => (b - a) :: priceChanges (b :: rest)
  | _ => []

/-- The per-step gains list of `calculate_rsi`. -/
def rsiGains (prices : List ℚ) : List ℚ :=
  (priceChanges prices).map (fun c => if 0 < c then c else 0)

/-- The per-step losses list of `calculate_rsi`: `abs(change)` of a
non-positive change, i.e. its negation. -/
def rsiLosses (prices : List ℚ) : List ℚ :=
  (priceChanges prices).map (fun c => if 0 < c then 0 else -c)

/-- One RSI value from the current Wilder averages (lines 108–113).
Python stores `float('inf')` as the ratio when the average loss is zero and
the average gain is positive; `100 - 100/(1 + inf)` evaluates to `100`, and
the zero/zero case gives ratio `0`, hence value `0`.  The float-infinity
arithmetic is folded into the values it produces. -/
def rsiValue (avg_gain avg_loss : ℚ) : ℚ :=
  if avg_loss = 0 then (if 0 < avg_gain then 100 else 0)
  else 100 - 100 / (1 + avg_gain / avg_loss)

/-- Wilder-recurrence loop of `calculate_rsi` (lines 116–126) over the
remaining (gain, loss) pairs. -/
def rsiLoop (period : ℚ) : ℚ → ℚ → List (ℚ × ℚ) → List ℚ
  | _, _, [] => []
  | avg_gain, avg_loss, gl :: rest =>
      let ag := (avg_gain * (period - 1) + gl.1) / period
      let al := (avg_loss * (period - 1) + gl.2) / period
      rsiValue ag al :: rsiLoop period ag al rest

/-- `calculate_rsi(prices, period)` (lines 85–128). -/
def calculate_rsi (prices : List ℚ) (period : ℕ) : List ℚ :=
  if prices = [] ∨ prices.length < period + 1 then []
  else
    let gains := rsiGains prices
    let losses := rsiLosses prices
    if gains.length < period then []
    else
      let avg_gain := (gains.take period).sum / (period : ℚ)
      let avg_loss := (losses.take period).sum / (period : ℚ)
      rsiValue avg_gain avg_loss ::
        rsiLoop (period : ℚ) avg_gain avg_loss
          ((gains.drop period).zip (losses.drop period))

/-- `calculate_macd(prices, fast, slow, signal)` (lines 130–150): the MACD
line is the difference of the fast and slow EMAs over their common suffix
(the source indexes `x[len(x) - min_len + i]` for `i < min_len`, which is
elementwise subtraction of the length-aligned suffixes), the signal line is
the EMA of the MACD line, the histogram their aligned difference.
Returns (macd_line, signal_line, histogram). -/
def calculate_macd (prices : List ℚ) (fast slow signal : ℕ) :
    List ℚ × List ℚ × List ℚ :=
  if prices.length < max fast slow + signal then ([], [], [])
  else
    let ema_fast := calculate_ema prices fast
    let ema_slow := calculate_ema prices slow
    let n := min ema_fast.length ema_slow.length
    if n = 0 then ([], [], [])
    else
      let macd_line := List.zipWith (fun a b => a - b)
        (ema_fast.drop (ema_fast.length - n)) (ema_slow.drop (ema_slow.length - n))
      let signal_line := calculate_ema macd_line signal
      let m := min macd_line.length signal_line.length
      if m = 0 then (macd_line, signal_line, [])
      else
        let histogram := List.zipWith (fun a b => a - b)
          (macd_line.drop (macd_line.length - m))
          (signal_line.drop (signal_line.length - m))
        (macd_line, signal_line, histogram)

/-- Per-window loop body of `calculate_bollinger_bands` (lines 161–170):
window mean, population variance, and the two band values. -/
def bbLoop (sqrt : ℚ → ℚ) (period : ℕ) (std_dev : ℚ) :
    List (List ℚ) → List ℚ × List ℚ × List ℚ
  | [] => ([], [], [])
  | w :: rest =>
      let (upper, middle, lower) := bbLoop sqrt period std_dev rest
      let sma := w.sum / (period : ℚ)
      let variance := (w.map (fun x => (x - sma) * (x - sma))).sum / (period : ℚ)
      let current_std_dev := sqrt variance
      ((sma + current_std_dev * std_dev) :: upper, sma :: middle,
        (sma - current_std_dev * std_dev) :: lower)

/-- `calculate_bollinger_bands(prices, period, std_dev)` (lines 152–172),
with `math.sqrt` abstracted as the `sqrt` parameter.  Returns
(upper_band, middle_band, lower_band), built window by window like the
source loop. -/
def calculate_bollinger_bands (sqrt : ℚ → ℚ) (prices : List ℚ)
    (period : ℕ) (std_dev : ℚ) : List ℚ × List ℚ × List ℚ :=
  if prices = [] ∨ prices.length < period then ([], [], [])
  else
    bbLoop sqrt period std_dev
      ((List.range (prices.length - period + 1)).map
        (fun i => (prices.drop i).take period))

/-- `abs` written with a kernel-reducible case split (Mathlib's lattice
`|·|` does not reduce by `decide`); used for the candle body size. -/
def madAbs (q : ℚ) : ℚ := if q < 0 then -q else q

/-- Trailing slice `volumes[-n:]` of a Python list (for `n = 0` Python's
`volumes[-0:]` is the whole list). -/
def trailingSlice (n : ℕ) (l : List ℚ) : List ℚ :=
  if n = 0 then l else l.drop (l.length - n)

/-- `calculate_average_volume(volumes, lookback_period)` (lines 174–178),
exactly as written: the guarded branch divides the trailing sum by itself
(`sum(...) / sum(...)`), not by the lookback period. -/
def calculate_average_volume (volumes : List ℚ) (lookback_period : ℕ) : ℚ :=
  if volumes.length < lookback_period then 0
  else
    let s := (trailingSlice lookback_period volumes).sum
    if 0 < s then s / s else 0

/-- What the documentation of `calculate_average_volume` and the spec say it
computes: the arithmetic mean of the trailing `lookback_period` volumes
(zero when fewer samples exist).  This definition follows the spec's words
and exists to be compared with `calculate_average_volume` above. -/
def average_volume_spec (volumes : List ℚ) (lookback_period : ℕ) : ℚ :=
  if volumes.length < lookback_period then 0
  else (trailingSlice lookback_period volumes).sum / (lookback_period : ℚ)

/-- Inner loop of `get_heikin_ashi_candles` (lines 229–244). -/
def haLoop : HACandle → List Candle → List HACandle
  | _, [] => []
  | prev, c :: rest =>
      let ha_close := (c.open_p + c.high + c.low + c.close) / 4
      let ha_open := (prev.open_p + prev.close) / 2
      let hc : HACandle :=
        { open_p := ha_open
          high := max c.high (max ha_open ha_close)
          low := min c.low (min ha_open ha_close)
          close := ha_close }
      hc :: haLoop hc rest

/-- `get_heikin_ashi_candles(candles)` (lines 205–245). -/
def get_heikin_ashi_candles : List Candle → List HACandle
  | [] => []
  | c :: rest =>
      let ha_close := (c.open_p + c.high + c.low + c.close) / 4
      let ha_open := (c.open_p + c.close) / 2
      let first : HACandle :=
        { open_p := ha_open
          high := max c.high (max ha_open ha_close)
          low := min c.low (min ha_open ha_close)
          close := ha_close }
      first :: haLoop first rest

/-- Largest `k ≤ fuel` with `k * k ≤ n` (structurally recursive so that it
evaluates inside the kernel, unlike `Nat.sqrt`). -/
def sqrtBelow : ℕ → ℕ → ℕ
  | 0, _ => 0
  | f + 1, n => if (f + 1) * (f + 1) ≤ n then f + 1 else sqrtBelow f n

/-- Integer square root (floor), kernel-reducible. -/
def natSqrtLinear (n : ℕ) : ℕ := sqrtBelow n n

/-- Executable rational square-root approximation used to instantiate the
`sqrt` parameter on concrete inputs (exact on perfect squares, such as the
zero variances of constant windows). -/
def ratSqrt (q : ℚ) : ℚ :=
  if q ≤ 0 then 0 else (natSqrtLinear q.num.toNat : ℚ) / (natSqrtLinear q.den : ℚ)

/-- The `strategy_data` dict assembled in `analyze_and_generate_signal`
(lines 598–619).  All fields are non-`None` there by the guard at
lines 578–582, so they are plain values here; `mk_pro_generate_signal`'s
own `is not None` checks are therefore always true. -/
structure StrategyData where
  close_price : ℚ
  ema10 : ℚ
  ema30 : ℚ
  rsi : ℚ
  macd_line : ℚ
  signal_line : ℚ
  bb_upper : ℚ
  bb_lower : ℚ
  volume : ℚ
  avg_volume : ℚ
  current_candle_open : ℚ
  current_candle_high : ℚ
  current_candle_low : ℚ
  current_candle_close : ℚ
  current_candle_body_percentage : ℚ
  latest_histogram : ℚ
  prev_histogram : ℚ
  prev_prev_histogram : ℚ
  ha_current_candle : HACandle
  ha_prev_candle : HACandle

/-- Result record of `mk_pro_generate_signal` (lines 413–420); the reason
strings are display-only and dropped. -/
structure ProResult where
  signal : Dir
  confidence : Conf
  bull_conditions_met : ℕ
  bear_conditions_met : ℕ
deriving DecidableEq, Repr

def CONFIDENCE_THRESHOLD_MEDIUM : ℚ := 1/2

def CONFIDENCE_THRESHOLD_HIGH : ℚ := 7/10

/-- The six bullish conditions of `mk_pro_generate_signal`
(lines 300–334), counted in source order: EMA trend, 3-bar rising MACD
histogram above zero, RSI > 63, volume spike, Bollinger breakout up,
two clean green Heikin-Ashi candles. -/
def bullCount (d : StrategyData) : ℕ :=
  (if d.ema30 < d.ema10 then 1 else 0) +
  (if d.prev_histogram < d.latest_histogram ∧
      d.prev_prev_histogram < d.prev_histogram ∧
      0 < d.latest_histogram then 1 else 0) +
  (if 63 < d.rsi then 1 else 0) +
  (if 0 < d.avg_volume ∧ (3/2) * d.avg_volume < d.volume then 1 else 0) +
  (if d.bb_upper < d.current_candle_close ∧
      45 ≤ d.current_candle_body_percentage then 1 else 0) +
  (if d.ha_current_candle.open_p < d.ha_current_candle.close ∧
      d.ha_current_candle.low = d.ha_current_candle.open_p ∧
      d.ha_prev_candle.open_p < d.ha_prev_candle.close ∧
      d.ha_prev_candle.low = d.ha_prev_candle.open_p then 1 else 0)

/-- The six bearish conditions of `mk_pro_generate_signal`
(lines 336–370); note the volume-spike condition (line 356) is literally
the same test as the bullish one (line 320). -/
def bearCount (d : StrategyData) : ℕ :=
  (if d.ema10 < d.ema30 then 1 else 0) +
  (if d.latest_histogram < d.prev_histogram ∧
      d.prev_histogram < d.prev_prev_histogram ∧
      d.latest_histogram < 0 then 1 else 0) +
  (if d.rsi < 37 then 1 else 0) +
  (if 0 < d.avg_volume ∧ (3/2) * d.avg_volume < d.volume then 1 else 0) +
  (if d.current_candle_close < d.bb_lower ∧
      45 ≤ d.current_candle_body_percentage then 1 else 0) +
  (if d.ha_current_candle.close < d.ha_current_candle.open_p ∧
      d.ha_current_candle.high = d.ha_current_candle.open_p ∧
      d.ha_prev_candle.close < d.ha_prev_candle.open_p ∧
      d.ha_prev_candle.high = d.ha_prev_candle.open_p then 1 else 0)

/-- Tier assignment of lines 385–390 / 394–399 from a confidence score. -/
def tierOf (score : ℚ) : Conf :=
  if CONFIDENCE_THRESHOLD_HIGH ≤ score then .HIGH
  else if CONFIDENCE_THRESHOLD_MEDIUM ≤ score then .MEDIUM
  else .LOW

/-- `mk_pro_generate_signal(data, pair_symbol)` (lines 249–420): weak-body
pre-filter (< 45% body returns NONE with zero counts, line 294), then the
final decision of lines 383–405.  `total_possible_conditions = 6`;
`0.15 = 3/20`; `bear_conditions_met < 1` is the literal Python test. -/
def mk_pro_generate_signal (d : StrategyData) : ProResult :=
  if d.current_candle_body_percentage < 45 then
    { signal := .NONE, confidence := .LOW
      bull_conditions_met := 0, bear_conditions_met := 0 }
  else
    let bull_conditions_met := bullCount d
    let bear_conditions_met := bearCount d
    let bull_confidence_score := (bull_conditions_met : ℚ) / 6
    let bear_confidence_score := (bear_conditions_met : ℚ) / 6
    if 1 ≤ bull_conditions_met ∧ 3/20 ≤ bull_confidence_score ∧
        bear_conditions_met < 1 then
      { signal := .UP, confidence := tierOf bull_confidence_score
        bull_conditions_met, bear_conditions_met }
    else if 1 ≤ bear_conditions_met ∧ 3/20 ≤ bear_confidence_score ∧
        bull_conditions_met < 1 then
      { signal := .DOWN, confidence := tierOf bear_confidence_score
        bull_conditions_met, bear_conditions_met }
    else
      { signal := .NONE, confidence := .LOW
        bull_conditions_met, bear_conditions_met }

/-- Indicator computation and `None` guard of `analyze_and_generate_signal`
(lines 536–596), producing the `strategy_data` dict.  Each `x[-1] if x else
None` extraction is a `getLast?`; Python's `x[-2]`/`x[-3]` with a length
guard are `getLast?` after `dropLast`.  `ema200` is computed by the source
but never guarded nor used, so it is omitted.  Returns `none` exactly when
the source's `any(val is None ...)` check fires. -/
def buildStrategyData (sqrt : ℚ → ℚ) (candles : List Candle) :
    Option StrategyData :=
  let close_prices := candles.map (·.close)
  let volumes := candles.map (·.volume)
  match calculate_macd close_prices 12 26 9,
      calculate_bollinger_bands sqrt close_prices 20 2,
      get_heikin_ashi_candles candles with
  | (macd_line_values, signal_line_values, histogram_values),
      (bb_upper_values, _bb_middle_values, bb_lower_values), ha_candles =>
  match candles.getLast?, (calculate_ema close_prices 10).getLast?,
      (calculate_ema close_prices 30).getLast?,
      (calculate_rsi close_prices 7).getLast?,
      macd_line_values.getLast?, signal_line_values.getLast?,
      bb_upper_values.getLast?, bb_lower_values.getLast?,
      histogram_values.getLast?, histogram_values.dropLast.getLast?,
      histogram_values.dropLast.dropLast.getLast?,
      ha_candles.getLast?, ha_candles.dropLast.getLast?,
      volumes.getLast? with
  | some current_candle, some ema10, some ema30, some rsi, some macd_line,
      some signal_line, some bb_upper, some bb_lower, some latest_histogram,
      some prev_histogram, some prev_prev_histogram, some ha_current_candle,
      some ha_prev_candle, some volume =>
      let avg_volume := calculate_average_volume volumes 10
      let body_size := madAbs (current_candle.close - current_candle.open_p)
      let total_range := current_candle.high - current_candle.low
      let body_percentage := if 0 < total_range then body_size / total_range * 100 else 0
      some
        { close_price := current_candle.close
          ema10, ema30, rsi, macd_line, signal_line, bb_upper, bb_lower
          volume, avg_volume
          current_candle_open := current_candle.open_p
          current_candle_high := current_candle.high
          current_candle_low := current_candle.low
          current_candle_close := current_candle.close
          current_candle_body_percentage := body_percentage
          latest_histogram, prev_histogram, prev_prev_histogram
          ha_current_candle, ha_prev_candle }
  | _, _, _, _, _, _, _, _, _, _, _, _, _, _ => none

/-- Displayed result state of a signal record: the strings
`"No Signal" | "⏳ WAITING" | "✅ WIN" | "❌ LOSS" | "Data Error"` plus the
result-time strings `"Data Error (Entry price missing for result check)"`,
`"Data Error (Could not fetch expiry candle for result)"` and
`"N/A (No Direction)"`. -/
inductive DisplayResult
  | noSignal
  | waiting
  | win
  | loss
  | dataError
  | dataErrorEntry
  | dataErrorFetchRes
  | na
deriving DecidableEq, Repr

/-- The signal record stored under `"current_signal"`; display-only string
fields (`signal_generated_at`, `entry_time`, `expiry_time`) and the reason
strings are dropped. -/
structure SignalRecord where
  direction : Dir
  confidence : Conf
  result : DisplayResult
  entry_price : Option ℚ
  expiry_timestamp : ℚ
deriving DecidableEq, Repr

/-- The `"No Signal"` record produced when fewer than 200 candles are
available (lines 522–534). -/
def shortHistoryRecord : SignalRecord :=
  { direction := .NONE, confidence := .LOW, result := .noSignal
    entry_price := none, expiry_timestamp := 0 }

/-- The `"No Signal"` record produced when an indicator value is missing
(lines 584–596). -/
def missingIndicatorRecord : SignalRecord :=
  { direction := .NONE, confidence := .NA, result := .noSignal
    entry_price := none, expiry_timestamp := 0 }

/-- `analyze_and_generate_signal(symbol, candles)` (lines 512–675), with
the wall clock passed as `now`.  A non-NONE direction gets entry price =
the analysed close, entry time +1 minute, expiry a further +1 minute
(timestamp `now + 120`).  The returned dict does NOT contain the
`bull_conditions_met` / `bear_conditions_met` keys (the scheduler later
reads them with `.get(..., 0)`). -/
def analyze_and_generate_signal (sqrt : ℚ → ℚ) (now : ℚ)
    (candles : List Candle) : SignalRecord :=
  if candles.length < 200 then shortHistoryRecord
  else
    match buildStrategyData sqrt candles with
    | none => missingIndicatorRecord
    | some d =>
        let pro := mk_pro_generate_signal d
        if pro.signal = .NONE then
          { direction := pro.signal, confidence := pro.confidence
            result := .noSignal, entry_price := none, expiry_timestamp := 0 }
        else
          { direction := pro.signal, confidence := pro.confidence
            result := .waiting, entry_price := some d.close_price
            expiry_timestamp := now + 120 }

/-! ## Scheduler loop (`signal_generation_loop`, lines 679–987)

The loop state for one pair is the value stored in `signals[pair]`; the
twelve monitored pairs are indices `0 ≤ i < 12` into a list of states (in
the order of `CURRENCY_PAIRS`).  Each iteration of the `while True` body is
`runCycle`, parameterised by the wall clock `now` (`current_time`) and two
network oracles giving the candle lists that `fetch_twelvedata_candles`
returns during this cycle: `fetchRes i` for the `outputsize=2` result-check
fetch of pair `i` (step 1) and `fetchGen i` for the `outputsize=250`
generation fetch (step 2); `none` models a fetch that failed on every API
key.  The shared 60-second cache sits behind these oracles (it is modelled
separately, with `fetch_twelvedata_candles` below). -/

def MAX_ACTIVE_SIGNALS : ℕ := 4

def SIGNAL_INTERVAL_MINUTES : ℚ := 1

def RESTING_PERIOD_MINUTES : ℚ := 2

def COOLDOWN_AFTER_RESULT_SECONDS : ℚ := 30

/-- The genuine (pre-manipulation) result `real_result` computed for an
expired WAITING signal (lines 726–772). -/
inductive RealResult
  | win
  | loss
  | dataErrorEntry
  | dataErrorFetch
  | na
deriving DecidableEq, Repr

/-- Per-pair state `signals[pair]` (lines 687–708).  `signals_given_count`
is created lazily by `.get(..., 0)` in Python; here it is a field that
starts at `0`. -/
structure PairState where
  current_signal : SignalRecord
  last_trade_finished_at : ℚ
  last_signal_generated_at : ℚ
  is_resting : Bool
  rest_end_time : ℚ
  result_display_end_time : ℚ
  consecutive_losses : ℕ
  forced_wins_given : ℕ
  signals_given_count : ℕ
deriving DecidableEq, Repr

/-- The initial `"current_signal"` record (lines 688–700) and the records
installed when a result display is cleared (lines 824–836) or a rest ends
(lines 846–858): direction NONE, confidence "N/A", result "No Signal". -/
def emptySignalRecord : SignalRecord :=
  { direction := .NONE, confidence := .NA, result := .noSignal
    entry_price := none, expiry_timestamp := 0 }

/-- The `"Data Error"` record installed when the generation fetch fails
(lines 927–939). -/
def dataErrorRecord : SignalRecord :=
  { direction := .NONE, confidence := .NA, result := .dataError
    entry_price := none, expiry_timestamp := 0 }

/-- Initial per-pair state (lines 687–708) with process start at time 0:
`last_trade_finished_at = now - 5 min`, `last_signal_generated_at =
now - 2 min`, not resting, rest/display timers at `now`. -/
def initPairState : PairState :=
  { current_signal := emptySignalRecord
    last_trade_finished_at := -300
    last_signal_generated_at := -120
    is_resting := false
    rest_end_time := 0
    result_display_end_time := 0
    consecutive_losses := 0
    forced_wins_given := 0
    signals_given_count := 0 }

/-- Initial scheduler state: one `initPairState` per monitored pair
(`CURRENCY_PAIRS` has 12 entries). -/
def initState : List PairState := List.replicate 12 initPairState

/-- `computeRealResult`: the result determination of lines 730–772, from
the stored direction and entry price and the `outputsize=2` fetch outcome.
Python tests `latest_candles_for_result and len(...) >= 1`, reads the
expiry close from `candles[-1]`, reports a data error for a missing entry
price, and otherwise compares close against entry per direction (UP wins
iff close > entry, DOWN wins iff close < entry, else LOSS).  The debug
print at line 743 interpolates the entry price with `:.4f` and is modelled
as a no-op like all logging; note that in CPython it would raise
`TypeError` on a `None` entry price before the `is None` check is reached
— that sub-case is unreachable in the loop because every record that ever
becomes WAITING carries an entry price. -/
def computeRealResult (direction : Dir) (entry_price : Option ℚ)
    (fetched : Option (List Candle)) : RealResult :=
  match fetched with
  | some latest_candles_for_result =>
      if 1 ≤ latest_candles_for_result.length then
        let expiry_close := (latest_candles_for_result.getLastD ⟨0, 0, 0, 0, 0⟩).close
        match entry_price with
        | none => .dataErrorEntry
        | some e =>
            match direction with
            | .UP => if e < expiry_close then .win else .loss
            | .DOWN => if expiry_close < e then .win else .loss
            | .NONE => .na
      else .dataErrorFetch
  | none => .dataErrorFetch

/-- The result-manipulation block (lines 774–797): from the genuine result
and the current counters, the updated `(consecutive_losses,
forced_wins_given)` and the *displayed* result.  On a genuine LOSS the
forced-win counter is set to `0` (line 780) before the `>= 4 and < 2`
check (line 784). -/
def resultManip (real : RealResult) (consecutive_losses forced_wins_given : ℕ) :
    ℕ × ℕ × DisplayResult :=
  match real with
  | .loss =>
      let cl := consecutive_losses + 1
      let fw := 0
      if 4 ≤ cl ∧ fw < 2 then (cl, fw + 1, .win) else (cl, fw, .loss)
  | .win => (0, 0, .win)
  | .dataErrorEntry => (0, 0, .dataErrorEntry)
  | .dataErrorFetch => (0, 0, .dataErrorFetchRes)
  | .na => (0, 0, .na)

/-- Finalisation of an expired WAITING signal (lines 774–818): apply the
manipulation, store the displayed result, stamp the finish time and the
30-second display window, count the served signal when the direction is
not NONE, and enter the 2-minute rest after 5 served signals. -/
def finishResult (real : RealResult) (now : ℚ) (p : PairState) : PairState :=
  let r := resultManip real p.consecutive_losses p.forced_wins_given
  let p2 : PairState :=
    { p with
      consecutive_losses := r.1
      forced_wins_given := r.2.1
      current_signal := { p.current_signal with result := r.2.2 }
      last_trade_finished_at := now
      result_display_end_time := now + COOLDOWN_AFTER_RESULT_SECONDS }
  let p3 := if p.current_signal.direction ≠ .NONE then
    { p2 with signals_given_count := p2.signals_given_count + 1 } else p2
  if 5 ≤ p3.signals_given_count then
    { p3 with
      is_resting := true
      rest_end_time := now + RESTING_PERIOD_MINUTES * 60
      signals_given_count := 0 }
  else p3

/-- Case 2 of step 1 (lines 821–838): a displayed WIN/LOSS whose cooldown
has elapsed is cleared back to "No Signal". -/
def clearDisplayed (now : ℚ) (p : PairState) : PairState :=
  { p with current_signal := emptySignalRecord, last_signal_generated_at := now }

/-- Case 3 of step 1 (lines 841–863): an elapsed rest period clears the
resting flag, the record, the display timer and both counters. -/
def restReset (now : ℚ) (p : PairState) : PairState :=
  { p with
    is_resting := false
    current_signal := emptySignalRecord
    last_signal_generated_at := now
    result_display_end_time := now
    consecutive_losses := 0
    forced_wins_given := 0 }

/-- Step 1 of a cycle for one pair (lines 717–863): the three `elif` cases
in source order. -/
def step1 (fetchRes : Option (List Candle)) (now : ℚ) (p : PairState) :
    PairState :=
  if p.current_signal.result = .waiting ∧ 0 < p.current_signal.expiry_timestamp ∧
      p.current_signal.expiry_timestamp ≤ now then
    finishResult
      (computeRealResult p.current_signal.direction p.current_signal.entry_price
        fetchRes) now p
  else if (p.current_signal.result = .win ∨ p.current_signal.result = .loss) ∧
      p.result_display_end_time ≤ now then
    clearDisplayed now p
  else if p.is_resting ∧ p.rest_end_time ≤ now then
    restReset now p
  else p

/-- Step 1 applied to every pair in order (the `for pair in CURRENCY_PAIRS`
loop at line 717); each pair only reads and writes its own state. -/
def step1All (fetchRes : ℕ → Option (List Candle)) (now : ℚ) :
    ℕ → List PairState → List PairState
  | _, [] => []
  | i, p :: rest => step1 (fetchRes i) now p :: step1All fetchRes now (i + 1) rest

/-- `["LOW", "MEDIUM", "HIGH", "VERY HIGh..."].index(confidence)`
(line 915).  Candidates always carry a confidence produced by
`mk_pro_generate_signal` for a non-NONE direction, i.e. LOW, MEDIUM or
HIGH; `N/A` cannot occur there (Python would raise). -/
def confLevel : Conf → ℕ
  | .LOW => 0
  | .MEDIUM => 1
  | .HIGH => 2
  | .NA => 0

/-- One entry of `potential_signals_for_this_iteration` (lines 909–916).
`bull_conditions` and `bear_conditions` are read from the analyzer's
returned record with `.get("bull_conditions_met", 0)`; that record has no
such keys (lines 648–660), so both are always the default `0`. -/
structure CandEntry where
  pair : ℕ
  signal_data : SignalRecord
  analysis_time : ℚ
  bull_conditions : ℕ
  bear_conditions : ℕ
  confidence_level : ℕ
deriving DecidableEq, Repr

/-- Step 2 of a cycle for one pair (lines 873–945): eligibility checks in
source order (resting, displayed result cooldown, the global WAITING cap
computed once per cycle, the 1-minute per-pair interval), then the
generation fetch and analysis.  Returns the updated pair state and the
candidate entry, if any: a non-NONE direction only appends a candidate, a
NONE direction records the non-signal immediately, a failed or empty fetch
records "Data Error" and resets both loss counters (lines 925–943). -/
def step2Pair (sqrt : ℚ → ℚ) (fetchGen : Option (List Candle)) (cnt : ℕ)
    (now : ℚ) (idx : ℕ) (p : PairState) : PairState × Option CandEntry :=
  if p.is_resting then (p, none)
  else if (p.current_signal.result = .win ∨ p.current_signal.result = .loss) ∧
      now < p.result_display_end_time then (p, none)
  else if MAX_ACTIVE_SIGNALS ≤ cnt then (p, none)
  else if SIGNAL_INTERVAL_MINUTES * 60 ≤ now - p.last_signal_generated_at then
    let candles := fetchGen.getD []
    if candles = [] then
      ({ p with
          current_signal := dataErrorRecord
          last_signal_generated_at := now
          consecutive_losses := 0
          forced_wins_given := 0 }, none)
    else
      let new_signal := analyze_and_generate_signal sqrt now candles
      if new_signal.direction ≠ .NONE then
        (p, some
          { pair := idx
            signal_data := new_signal
            analysis_time := now
            bull_conditions := 0
            bear_conditions := 0
            confidence_level := confLevel new_signal.confidence })
      else
        ({ p with current_signal := new_signal
                  last_signal_generated_at := now }, none)
  else (p, none)

/-- Step 2 over all pairs in order, collecting the candidate list. -/
def step2All (sqrt : ℚ → ℚ) (fetchGen : ℕ → Option (List Candle)) (cnt : ℕ)
    (now : ℚ) : ℕ → List PairState → List PairState × List CandEntry
  | _, [] => ([], [])
  | i, p :: rest =>
      let pc := step2Pair sqrt (fetchGen i) cnt now i p
      let rc := step2All sqrt fetchGen cnt now (i + 1) rest
      (pc.1 :: rc.1,
        match pc.2 with
        | some c => c :: rc.2
        | none => rc.2)

/-- The Python sort key of line 949: the tuple
`(confidence_level, max(bull, bear), -analysis_time)`. -/
def candKey (c : CandEntry) : ℕ × ℕ × ℚ :=
  (c.confidence_level, max c.bull_conditions c.bear_conditions, -c.analysis_time)

/-- Strict lexicographic order on sort keys (Python tuple `<`). -/
def keyLt (a b : ℕ × ℕ × ℚ) : Prop :=
  a.1 < b.1 ∨ (a.1 = b.1 ∧ (a.2.1 < b.2.1 ∨ (a.2.1 = b.2.1 ∧ a.2.2 < b.2.2)))

instance (a b : ℕ × ℕ × ℚ) : Decidable (keyLt a b) := by
  unfold keyLt; infer_instance

/-- Stable insertion for descending key order: an element is placed before
the first element whose key is not strictly greater. -/
def insertCand (x : CandEntry) : List CandEntry → List CandEntry
  | [] => [x]
  | y :: ys => if keyLt (candKey x) (candKey y) then y :: insertCand x ys
               else x :: y :: ys

/-- `potential_signals_for_this_iteration.sort(key=..., reverse=True)`
(line 949): a stable sort into descending key order (Python's `list.sort`
is stable, also with `reverse=True`; a stable insertion sort produces the
identical list). -/
def sortCands : List CandEntry → List CandEntry
  | [] => []
  | x :: xs => insertCand x (sortCands xs)

/-- The selection loop of lines 952–967: walk the ranked candidates,
admitting while fewer than `MAX_ACTIVE_SIGNALS` have been collected
(`break` otherwise), skipping any pair that is WAITING or resting at
admission time. -/
def selectLoop (s2 : List PairState) (acc : List CandEntry) :
    List CandEntry → List CandEntry
  | [] => acc
  | c :: rest =>
      if acc.length < MAX_ACTIVE_SIGNALS then
        let st := s2.getD c.pair initPairState
        if st.current_signal.result ≠ .waiting ∧ st.is_resting = false then
          selectLoop s2 (acc ++ [c]) rest
        else selectLoop s2 acc rest
      else acc

/-- The activation loop of lines 969–975: install each selected candidate's
record and stamp the generation time. -/
def activateAll (now : ℚ) : List CandEntry → List PairState → List PairState
  | [], s => s
  | c :: rest, s =>
      activateAll now rest
        (s.set c.pair
          { s.getD c.pair initPairState with
              current_signal := c.signal_data
              last_signal_generated_at := now })

/-- Number of pairs whose displayed result is "⏳ WAITING"
(`active_waiting_signals_count`, line 869). -/
def countWaiting (s : List PairState) : ℕ :=
  s.countP (fun p => p.current_signal.result == DisplayResult.waiting)

/-- One full iteration of the `while True` loop (lines 710–982): step 1
sweeps all pairs, the WAITING count is computed once, step 2 generates
candidates, step 3 ranks, selects and activates them. -/
def runCycle (sqrt : ℚ → ℚ) (fetchRes fetchGen : ℕ → Option (List Candle))
    (now : ℚ) (s : List PairState) : List PairState :=
  let s1 := step1All fetchRes now 0 s
  let cnt := countWaiting s1
  let sc := step2All sqrt fetchGen cnt now 0 s1
  activateAll now (selectLoop sc.1 [] (sortCands sc.2)) sc.1

/-- A scheduler trace: one `(fetchRes, fetchGen, now)` triple per cycle,
applied in order from a start state. -/
def runCycles (sqrt : ℚ → ℚ) :
    List ((ℕ → Option (List Candle)) × (ℕ → Option (List Candle)) × ℚ) →
    List PairState → List PairState
  | [], s => s
  | c :: rest, s => runCycles sqrt rest (runCycle sqrt c.1 c.2.1 c.2.2 s)

/-! ## Market data gateway (`fetch_twelvedata_candles`, lines 424–509)

The network is modelled by an oracle `resp key symbol interval outputsize`
giving the candle list parsed out of the provider response for that request
(after the row-by-row skipping of malformed rows and the reversal to
oldest-first), or `none` for every outcome that makes the source `continue`
to the next key: transport errors, timeouts, JSON decode errors, a
`message` payload, or a response with no `values`.  A parsed-but-empty
candle list also falls through to the next key (lines 481–488). -/

/-- `CACHE_DURATION_SECONDS = 60` (line 52). -/
def CACHE_DURATION_SECONDS : ℚ := 60

/-- One entry of `TWELVEDATA_CACHE`: the candle list and the fetch time.
The cache is keyed by symbol only (line 483). -/
structure CacheEntry where
  data : List Candle
  timestamp : ℚ
deriving DecidableEq, Repr

/-- The cache, keyed by symbol (symbols are numbered). -/
def Cache : Type := ℕ → Option CacheEntry

/-- The `for key in API_KEYS` loop (lines 439–506): the first key whose
response parses to a non-empty candle list wins; every other outcome
advances to the next key; exhaustion yields `None`. -/
def tryKeys (resp : ℕ → Option (List Candle)) : List ℕ → Option (List Candle)
  | [] => none
  | key :: rest =>
      match resp key with
      | some candles => if candles = [] then tryKeys resp rest else some candles
      | none => tryKeys resp rest

/-- `fetch_twelvedata_candles(symbol, interval, outputsize)` (lines
424–509): a cache entry for the symbol younger than 60 seconds
short-circuits the call — the requested `interval` and `outputsize` are
not consulted (lines 430–435); otherwise the key loop runs and a non-empty
result is stored in the cache under the symbol.  Returns the result and
the updated cache. -/
def fetch_twelvedata_candles
    (resp : ℕ → ℕ → ℕ → ℕ → Option (List Candle)) (api_keys : List ℕ)
    (cache : Cache) (symbol : ℕ) (interval : ℕ) (outputsize : ℕ) (now : ℚ) :
    Option (List Candle) × Cache :=
  let hit :=
    match cache symbol with
    | some cached_entry =>
        if now - cached_entry.timestamp < CACHE_DURATION_SECONDS then
          some cached_entry.data
        else none
    | none => none
  match hit with
  | some data => (some data, cache)
  | none =>
      match tryKeys (fun key => resp key symbol interval outputsize) api_keys with
      | some candles =>
          (some candles,
            fun sym => if sym = symbol then some ⟨candles, now⟩ else cache sym)
      | none => (none, cache)

/-! ## Concrete inputs used by the theorems below -/

/-- A flat unit candle. -/
def flatCandle : Candle := ⟨1, 1, 1, 1, 1⟩

/-- 200 candles: 199 flat ones and a final wide-margin up candle with a
100% body and unit volume (volume 1 is NOT a spike against the buggy
average of 1, since 1 ≤ 1.5).  The pipeline yields UP / MEDIUM with
bullish conditions EMA, RSI and band breakout. -/
def inputA : List Candle := List.replicate 199 flatCandle ++ [⟨1, 2, 1, 2, 1⟩]

/-- The scenario of claim C5: 200 flat candles except the last, whose
close (2) exceeds the previous close (1) by a wide margin, whose body is
100% of its range, and whose volume (9/4) is exactly twice the 10-period
trailing average volume ((9·1 + 9/4)/10 = 9/8). -/
def c5Candles : List Candle := List.replicate 199 flatCandle ++ [⟨1, 2, 1, 2, 9/4⟩]

/-- 200 candles ending in two accelerating up candles; the pipeline yields
UP / MEDIUM with four bullish conditions (EMA, 3-bar MACD histogram, RSI,
band breakout) and no volume spike. -/
def inputB : List Candle :=
  List.replicate 198 flatCandle ++ [⟨1, 2, 1, 2, 1⟩, ⟨2, 3, 1, 3, 1⟩]

/-- A result-check candle whose close (1/2) is below the stored entry
price 2 of an UP signal from `inputA`: a genuine LOSS. -/
def lossCandle : Candle := ⟨2, 2, 1/2, 1/2, 1⟩

/-- The strategy data that `buildStrategyData` produces on `c5Candles`,
for an arbitrary square root `s`: everything is flat except the last
candle, so only the last Bollinger window (19 closes of 1 and one of 2,
variance 19/400) involves `s`.  The buggy `calculate_average_volume`
contributes `avg_volume = 1` (sum/sum), not the true mean 9/8. -/
def c5data (s : ℚ → ℚ) : StrategyData :=
  { close_price := 2
    ema10 := 13/11
    ema30 := 33/31
    rsi := 100
    macd_line := 28/351
    signal_line := 28/1755
    bb_upper := 21/20 + s (19/400) * 2
    bb_lower := 21/20 - s (19/400) * 2
    volume := 9/4
    avg_volume := 1
    current_candle_open := 1
    current_candle_high := 2
    current_candle_low := 1
    current_candle_close := 2
    current_candle_body_percentage := 100
    latest_histogram := 112/1755
    prev_histogram := 0
    prev_prev_histogram := 0
    ha_current_candle := ⟨1, 2, 1, 3/2⟩
    ha_prev_candle := ⟨1, 1, 1, 1⟩ }

/-- A strategy snapshot with a 100% body, a bullish EMA crossover and no
other active condition; used to instantiate the decision-rule theorem. -/
def c6data : StrategyData :=
  { close_price := 0
    ema10 := 1
    ema30 := 0
    rsi := 50
    macd_line := 0
    signal_line := 0
    bb_upper := 5
    bb_lower := -5
    volume := 0
    avg_volume := 0
    current_candle_open := 0
    current_candle_high := 1
    current_candle_low := 0
    current_candle_close := 0
    current_candle_body_percentage := 100
    latest_histogram := 0
    prev_histogram := 0
    prev_prev_histogram := 0
    ha_current_candle := ⟨0, 0, 0, 0⟩
    ha_prev_candle := ⟨0, 0, 0, 0⟩ }

/-- Counters `(consecutive_losses, forced_wins_given)` after `n` genuine
consecutive LOSS results from a fresh pair (both counters zero), with no
intervening genuine WIN, data error or rest expiry. -/
def lossCounters : ℕ → ℕ × ℕ
  | 0 => (0, 0)
  | n + 1 =>
      let r := resultManip .loss (lossCounters n).1 (lossCounters n).2
      (r.1, r.2.1)

/-- The displayed result of genuine consecutive LOSS number `n + 1` in the
same run. -/
def displayedLoss (n : ℕ) : DisplayResult :=
  (resultManip .loss (lossCounters n).1 (lossCounters n).2).2.2

/-- Generation-fetch oracle of the first counterexample cycle: pairs 0–2
obtain 200 usable candles (`inputA`), every other fetch fails. -/
def c1Gen1 : ℕ → Option (List Candle) := fun i => if i < 3 then some inputA else none

/-- Generation-fetch oracle of the second counterexample cycle: pairs 0–6
obtain `inputA`, every other fetch fails. -/
def c1Gen2 : ℕ → Option (List Candle) := fun i => if i < 7 then some inputA else none

/-- A fetch oracle on which every request fails. -/
def fetchFailAll : ℕ → Option (List Candle) := fun _ => none

/-- Two-cycle trace from startup: cycle at t=0 admits WAITING signals for
pairs 0–2 (expiry t=120); cycle at t=63 (before any expiry) generates
candidates for pairs 0–6 and admits four more. -/
def c1Trace : List ((ℕ → Option (List Candle)) × (ℕ → Option (List Candle)) × ℚ) :=
  [(fetchFailAll, c1Gen1, 0), (fetchFailAll, c1Gen2, 63)]

/-- Generation-fetch oracle giving pair 0 the 200 usable candles. -/
def c3Gen0 : ℕ → Option (List Candle) := fun i => if i = 0 then some inputA else none

/-- Result-fetch oracle giving pair 0 an expiry candle that closes below
the stored entry price (a genuine LOSS for an UP signal). -/
def c3ResLoss : ℕ → Option (List Candle) := fun i => if i = 0 then some [lossCandle] else none

/-- Three-cycle trace from startup driving pair 0 through one genuine
LOSS result: admitted at t=0 (expiry 120), expired as a genuine LOSS at
t=120, display cleared at t=150. -/
def c3Trace : List ((ℕ → Option (List Candle)) × (ℕ → Option (List Candle)) × ℚ) :=
  [(fetchFailAll, c3Gen0, 0),
   (c3ResLoss, fetchFailAll, 120),
   (fetchFailAll, fetchFailAll, 150)]

/-- The scheduler state after `c3Trace`: pair 0 idle ("No Signal") with
one consecutive genuine loss on record. -/
def c3s9 : List PairState := runCycles ratSqrt c3Trace initState

/-- Generation oracle of the step-2 candidate phase used for the ranking
evaluation: pair 0 analyses `inputA` (3 true bullish conditions), pair 1
analyses `inputB` (4 true bullish conditions), both UP / MEDIUM. -/
def c9Gen : ℕ → Option (List Candle) :=
  fun i => if i = 0 then some inputA else if i = 1 then some inputB else none

/-- The candidate list step 2 collects from two idle pairs under `c9Gen`. -/
def c9Cands : List CandEntry :=
  (step2All ratSqrt c9Gen 0 0 0 [initPairState, initPairState]).2

/-- Network oracle for the cache scenario: a 2-row request parses to two
candles, any other request to 250 flat candles. -/
def c10Resp : ℕ → ℕ → ℕ → ℕ → Option (List Candle) :=
  fun _key _symbol _interval outputsize =>
    if outputsize = 2 then some [flatCandle, ⟨1, 2, 1, 2, 1⟩]
    else some (List.replicate 250 flatCandle)

/-- The empty cache at startup. -/
def emptyCache : Cache := fun _ => none

/-- The cache after a 2-candle result-determination fetch for symbol 5 at
time 0 (`fetch_twelvedata_candles(pair, outputsize=2)`, line 732). -/
def c10Cache1 : Cache :=
  (fetch_twelvedata_candles c10Resp [0] emptyCache 5 1 2 0).2

/-! ## Theorems -/

set_option maxRecDepth 4000000

set_option maxHeartbeats 4000000

/-- Claim C4 (code bug): `calculate_average_volume` is claimed to return
the arithmetic mean of the trailing 10 volumes once 10 samples exist, and
0 otherwise.  The short-input branch does return 0, but the main branch
returns `sum/sum` (line 178), which is 1 — not the mean — on ten volumes
of 2, where the documented mean (`average_volume_spec`) is 2. -/
theorem C4_average_volume_returns_one :
    calculate_average_volume (List.replicate 10 2) 10 = 1 ∧
    average_volume_spec (List.replicate 10 2) 10 = 2 ∧
    (1 : ℚ) ≠ 2 ∧
    calculate_average_volume [1, 2, 3] 10 = 0 := by
  refine ⟨by decide, by decide, by decide, by decide⟩

/-- Claim C7 (confirmed): on WAITING expiry the genuine result compares
the fetched expiry close against the stored entry price — an UP signal
wins iff close > entry and otherwise loses, a DOWN signal wins iff
close < entry and otherwise loses — while a missing entry price or a
failed/empty expiry fetch yields a data-error result that is never WIN or
LOSS. -/
theorem C7_result_determination (e : ℚ) (c : Candle) (cs : List Candle)
    (d : Dir) (ep : Option ℚ) :
    (computeRealResult .UP (some e) (some (c :: cs)) = .win ↔
      e < ((c :: cs).getLastD ⟨0, 0, 0, 0, 0⟩).close) ∧
    (computeRealResult .UP (some e) (some (c :: cs)) = .loss ↔
      ¬ e < ((c :: cs).getLastD ⟨0, 0, 0, 0, 0⟩).close) ∧
    (computeRealResult .DOWN (some e) (some (c :: cs)) = .win ↔
      ((c :: cs).getLastD ⟨0, 0, 0, 0, 0⟩).close < e) ∧
    (computeRealResult .DOWN (some e) (some (c :: cs)) = .loss ↔
      ¬ ((c :: cs).getLastD ⟨0, 0, 0, 0, 0⟩).close < e) ∧
    computeRealResult d none (some (c :: cs)) = .dataErrorEntry ∧
    computeRealResult d ep none = .dataErrorFetch ∧
    computeRealResult d ep (some []) = .dataErrorFetch ∧
    computeRealResult d none (some (c :: cs)) ≠ .win ∧
    computeRealResult d none (some (c :: cs)) ≠ .loss ∧
    computeRealResult d ep none ≠ .win ∧
    computeRealResult d ep none ≠ .loss := by
  refine ⟨?_, ?_, ?_, ?_, ?_, ?_, ?_, ?_, ?_, ?_, ?_⟩
  · by_cases h : e < ((c :: cs).getLastD ⟨0, 0, 0, 0, 0⟩).close <;>
      simp [computeRealResult, h]
  · by_cases h : e < ((c :: cs).getLastD ⟨0, 0, 0, 0, 0⟩).close <;>
      simp [computeRealResult, h]
  · by_cases h : ((c :: cs).getLastD ⟨0, 0, 0, 0, 0⟩).close < e <;>
      simp [computeRealResult, h]
  · by_cases h : ((c :: cs).getLastD ⟨0, 0, 0, 0, 0⟩).close < e <;>
      simp [computeRealResult, h]
  · cases d <;> simp [computeRealResult]
  · cases d <;> simp [computeRealResult]
  · cases d <;> simp [computeRealResult]
  · cases d <;> simp [computeRealResult]
  · cases d <;> simp [computeRealResult]
  · cases d <;> simp [computeRealResult]
  · cases d <;> simp [computeRealResult]

/-- Helper: the loss counter a `finishResult` stores is whatever
`resultManip` produced. -/
theorem finishResult_cl (real : RealResult) (now : ℚ) (p : PairState) :
    (finishResult real now p).consecutive_losses =
      (resultManip real p.consecutive_losses p.forced_wins_given).1 := by
  unfold finishResult
  dsimp only
  split <;> split <;> rfl

/-- Helper: the forced-win counter a `finishResult` stores is whatever
`resultManip` produced. -/
theorem finishResult_fw (real : RealResult) (now : ℚ) (p : PairState) :
    (finishResult real now p).forced_wins_given =
      (resultManip real p.consecutive_losses p.forced_wins_given).2.1 := by
  unfold finishResult
  dsimp only
  split <;> split <;> rfl

/-- Helper: after `n` genuine consecutive losses the internal loss counter
is exactly `n`. -/
theorem lossCounters_fst (n : ℕ) : (lossCounters n).1 = n := by
  induction n with
  | zero => rfl
  | succ k ih =>
      rw [lossCounters]
      simp only [resultManip]
      split <;> simp [ih]
/-- Claim C2 (amended): under the code as written, a genuine LOSS zeroes
`forced_wins_given` (line 780) before the `>= 4 and < 2` check (line 784),
so from the fourth consecutive genuine LOSS onward every genuine LOSS is
displayed as WIN with `forced_wins_given` ending at 1, the true LOSS is
never displayed again in the run, and the loss counter keeps counting
(so the fifth loss shows WIN with counters (5, 1), as the claim says, but
the sixth shows WIN with `forcedWinCount` 1 — not 2 — and the seventh is
displayed as WIN, not as the true LOSS). -/
theorem C2_forced_wins_amended (n : ℕ) :
    (lossCounters (n + 1)).1 = n + 1 ∧
    (lossCounters (n + 1)).2 = (if 4 ≤ n + 1 then 1 else 0) ∧
    displayedLoss n = (if 4 ≤ n + 1 then DisplayResult.win else DisplayResult.loss) := by
  have h1 : (lossCounters n).1 = n := lossCounters_fst n
  refine ⟨lossCounters_fst (n + 1), ?_, ?_⟩
  · rw [lossCounters]
    simp only [resultManip, h1]
    rcases Nat.lt_or_ge (n + 1) 4 with h | h
    · rw [if_neg (by omega : ¬ (4 ≤ n + 1 ∧ 0 < 2)),
        if_neg (by omega : ¬ 4 ≤ n + 1)]
    · rw [if_pos (by omega : 4 ≤ n + 1 ∧ 0 < 2), if_pos h]
  · unfold displayedLoss
    simp only [resultManip, h1]
    rcases Nat.lt_or_ge (n + 1) 4 with h | h
    · rw [if_neg (by omega : ¬ (4 ≤ n + 1 ∧ 0 < 2)),
        if_neg (by omega : ¬ 4 ≤ n + 1)]
    · rw [if_pos (by omega : 4 ≤ n + 1 ∧ 0 < 2), if_pos h]

/-- Claim C2 (counterexample): the claim asserts the sixth consecutive
genuine LOSS is displayed as WIN with `forcedWinCount = 2` and the seventh
is displayed as the true LOSS.  In the code the counter after the sixth
loss is 1, and the seventh loss is again displayed as WIN. -/
theorem C2_counterexample :
    (lossCounters 6).2 = 1 ∧ (1 : ℕ) ≠ 2 ∧
    displayedLoss 6 = DisplayResult.win ∧
    DisplayResult.win ≠ DisplayResult.loss := by
  refine ⟨by decide, by decide, by decide, by decide⟩

/-- Claim C3 (amended): the counter-touching transitions of the loop.  A
genuine WIN, either genuine data error, and rest expiry reset both
counters to zero — and so does a candle-fetch failure during candidate
generation (`step2FailState`, from lines 925–943), which the claim
excluded.  A genuine LOSS never resets `consecutive_losses` (it always
increments), but it does overwrite `forced_wins_given` with `if 4 ≤ cl + 1
then 1 else 0`; clearing a displayed result leaves both counters
untouched. -/
theorem C3_reset_rules (p : PairState) (now : ℚ) :
    ((finishResult .win now p).consecutive_losses = 0 ∧
      (finishResult .win now p).forced_wins_given = 0) ∧
    ((finishResult .dataErrorEntry now p).consecutive_losses = 0 ∧
      (finishResult .dataErrorEntry now p).forced_wins_given = 0) ∧
    ((finishResult .dataErrorFetch now p).consecutive_losses = 0 ∧
      (finishResult .dataErrorFetch now p).forced_wins_given = 0) ∧
    ((finishResult .na now p).consecutive_losses = 0 ∧
      (finishResult .na now p).forced_wins_given = 0) ∧
    ((finishResult .loss now p).consecutive_losses = p.consecutive_losses + 1 ∧
      (finishResult .loss now p).forced_wins_given =
        (if 4 ≤ p.consecutive_losses + 1 then 1 else 0)) ∧
    ((restReset now p).consecutive_losses = 0 ∧
      (restReset now p).forced_wins_given = 0) ∧
    ((clearDisplayed now p).consecutive_losses = p.consecutive_losses ∧
      (clearDisplayed now p).forced_wins_given = p.forced_wins_given) := by
  refine ⟨⟨?_, ?_⟩, ⟨?_, ?_⟩, ⟨?_, ?_⟩, ⟨?_, ?_⟩, ⟨?_, ?_⟩,
    ⟨rfl, rfl⟩, ⟨rfl, rfl⟩⟩ <;>
    simp only [finishResult_cl, finishResult_fw, resultManip]
  · rcases Nat.lt_or_ge (p.consecutive_losses + 1) 4 with h | h
    · rw [if_neg (by omega : ¬ (4 ≤ p.consecutive_losses + 1 ∧ 0 < 2))]
    · rw [if_pos (by omega : 4 ≤ p.consecutive_losses + 1 ∧ 0 < 2)]
  · rcases Nat.lt_or_ge (p.consecutive_losses + 1) 4 with h | h
    · rw [if_neg (by omega : ¬ (4 ≤ p.consecutive_losses + 1 ∧ 0 < 2)),
        if_neg (by omega : ¬ 4 ≤ p.consecutive_losses + 1)]
    · rw [if_pos (by omega : 4 ≤ p.consecutive_losses + 1 ∧ 0 < 2), if_pos h]

/-- Claim C10 (confirmed): the market-data cache is keyed by symbol alone,
so any cache entry fresher than 60 seconds is returned for every requested
interval and outputsize, and the cache is left unchanged. -/
theorem C10_cache_keyed_by_symbol
    (resp : ℕ → ℕ → ℕ → ℕ → Option (List Candle)) (api_keys : List ℕ)
    (cache : Cache) (symbol interval outputsize : ℕ) (now : ℚ)
    (entry : CacheEntry) (hhit : cache symbol = some entry)
    (hfresh : now - entry.timestamp < CACHE_DURATION_SECONDS) :
    fetch_twelvedata_candles resp api_keys cache symbol interval outputsize now =
      (some entry.data, cache) := by
  unfold fetch_twelvedata_candles
  rw [hhit]
  simp [hfresh]

/-- Claim C10 (witness): a 2-candle result-determination fetch for symbol 5
populates the cache; 30 seconds later the 250-candle generation fetch for
the same symbol returns the cached 2 candles — 2, not 250. -/
theorem C10_witness :
    (fetch_twelvedata_candles c10Resp [0] c10Cache1 5 1 250 30).1 =
      some [flatCandle, ⟨1, 2, 1, 2, 1⟩] ∧
    ([flatCandle, (⟨1, 2, 1, 2, 1⟩ : Candle)] : List Candle).length = 2 ∧
    (2 : ℕ) ≠ 250 := by
  have h := C10_cache_keyed_by_symbol c10Resp [0] c10Cache1 5 1 250 30
    ⟨[flatCandle, ⟨1, 2, 1, 2, 1⟩], 0⟩ (by decide) (by norm_num [CACHE_DURATION_SECONDS])
  exact ⟨by rw [h], by decide, by decide⟩

/-- Claim C6 (confirmed): for snapshots passing the weak-body pre-filter,
a direction is selected iff its condition count is at least 1, its score
(count/6) at least 0.15, and the opposing count is 0; conflicting evidence
yields NONE; the selected side's tier is HIGH from score 0.70, MEDIUM from
0.50, LOW below. -/
theorem C6_decision_rule (d : StrategyData)
    (h : ¬ d.current_candle_body_percentage < 45) :
    ((mk_pro_generate_signal d).signal = Dir.UP ↔
      1 ≤ (mk_pro_generate_signal d).bull_conditions_met ∧
      (3 : ℚ)/20 ≤ ((mk_pro_generate_signal d).bull_conditions_met : ℚ) / 6 ∧
      (mk_pro_generate_signal d).bear_conditions_met = 0) ∧
    ((mk_pro_generate_signal d).signal = Dir.DOWN ↔
      1 ≤ (mk_pro_generate_signal d).bear_conditions_met ∧
      (3 : ℚ)/20 ≤ ((mk_pro_generate_signal d).bear_conditions_met : ℚ) / 6 ∧
      (mk_pro_generate_signal d).bull_conditions_met = 0) ∧
    (1 ≤ (mk_pro_generate_signal d).bull_conditions_met →
      1 ≤ (mk_pro_generate_signal d).bear_conditions_met →
      (mk_pro_generate_signal d).signal = Dir.NONE) ∧
    ((mk_pro_generate_signal d).signal = Dir.UP →
      ((7/10 ≤ ((mk_pro_generate_signal d).bull_conditions_met : ℚ) / 6 →
          (mk_pro_generate_signal d).confidence = Conf.HIGH) ∧
       (1/2 ≤ ((mk_pro_generate_signal d).bull_conditions_met : ℚ) / 6 ∧
          ((mk_pro_generate_signal d).bull_conditions_met : ℚ) / 6 < 7/10 →
          (mk_pro_generate_signal d).confidence = Conf.MEDIUM) ∧
       (((mk_pro_generate_signal d).bull_conditions_met : ℚ) / 6 < 1/2 →
          (mk_pro_generate_signal d).confidence = Conf.LOW))) ∧
    ((mk_pro_generate_signal d).signal = Dir.DOWN →
      ((7/10 ≤ ((mk_pro_generate_signal d).bear_conditions_met : ℚ) / 6 →
          (mk_pro_generate_signal d).confidence = Conf.HIGH) ∧
       (1/2 ≤ ((mk_pro_generate_signal d).bear_conditions_met : ℚ) / 6 ∧
          ((mk_pro_generate_signal d).bear_conditions_met : ℚ) / 6 < 7/10 →
          (mk_pro_generate_signal d).confidence = Conf.MEDIUM) ∧
       (((mk_pro_generate_signal d).bear_conditions_met : ℚ) / 6 < 1/2 →
          (mk_pro_generate_signal d).confidence = Conf.LOW))) := by
  unfold mk_pro_generate_signal tierOf CONFIDENCE_THRESHOLD_HIGH CONFIDENCE_THRESHOLD_MEDIUM
  rw [if_neg h]
  dsimp only
  split_ifs with h1 h2 h3 h4 h5 h6 h7 h8 h9 h10 <;>
    refine ⟨?_, ?_, ?_, ?_, ?_⟩ <;>
    simp_all <;>
    first
      | omega
      | linarith
      | (intro ha hb; omega)
      | (constructor <;> intro hx <;> simp_all <;> omega)
      | (refine ⟨fun hx => ?_, fun hx hy => ?_, fun hx => ?_⟩ <;> linarith)
      | (refine ⟨fun hx => ?_, fun hx => ?_⟩ <;> linarith)
      | skip

/-- Claim C6 (witness): on the concrete snapshot `c6data` (100% body, one
bullish condition, no bearish condition) the rule selects UP. -/
theorem C6_witness : (mk_pro_generate_signal c6data).signal = Dir.UP :=
  ((C6_decision_rule c6data (by decide)).1).mpr (by decide)

/-- Helper: `priceChanges` has one entry per adjacent pair. -/
theorem priceChanges_length (l : List ℚ) :
    (priceChanges l).length = l.length - 1 := by
  induction l with
  | nil => rfl
  | cons a t ih =>
      cases t with
      | nil => rfl
      | cons b r =>
          rw [priceChanges]
          simpa using ih

/-- Helper: on a strictly increasing price list every change is positive. -/
theorem priceChanges_pos (l : List ℚ) (hl : List.Chain' (· < ·) l) :
    ∀ d ∈ priceChanges l, 0 < d := by
  induction l with
  | nil => intro d hd; cases hd
  | cons a t ih =>
      cases t with
      | nil => intro d hd; cases hd
      | cons b r =>
          rw [List.chain'_cons] at hl
          intro d hd
          rw [priceChanges] at hd
          rcases List.mem_cons.mp hd with h | h
          · rw [h]; linarith [hl.1]
          · exact ih hl.2 d h

/-- Helper: all RSI inputs on a strictly increasing list: gains positive,
losses zero. -/
theorem rsiGains_pos (l : List ℚ) (hl : List.Chain' (· < ·) l) :
    ∀ g ∈ rsiGains l, 0 < g := by
  intro g hg
  rcases List.mem_map.mp hg with ⟨d, hd, rfl⟩
  have := priceChanges_pos l hl d hd
  simp [this]

/-- Helper: losses vanish on a strictly increasing list. -/
theorem rsiLosses_zero (l : List ℚ) (hl : List.Chain' (· < ·) l) :
    ∀ x ∈ rsiLosses l, x = 0 := by
  intro x hx
  rcases List.mem_map.mp hx with ⟨d, hd, rfl⟩
  have := priceChanges_pos l hl d hd
  simp [this, not_lt.mpr (le_of_lt this)]

/-- Helper: with zero average loss and positive average gain the RSI value
saturates at 100. -/
theorem rsiValue_sat (ag : ℚ) (hag : 0 < ag) : rsiValue ag 0 = 100 := by
  unfold rsiValue
  rw [if_pos rfl, if_pos hag]

/-- Helper: the Wilder loop emits 100 at every step while the loss average
stays zero and the gain average stays positive. -/
theorem rsiLoop_sat (pd : ℚ) (hpd : 1 ≤ pd) :
    ∀ (gl : List (ℚ × ℚ)) (ag : ℚ), 0 < ag →
      (∀ x ∈ gl, 0 < x.1 ∧ x.2 = 0) →
      ∀ r ∈ rsiLoop pd ag 0 gl, r = 100 := by
  intro gl
  induction gl with
  | nil => intro ag _ _ r hr; cases hr
  | cons x rest ih =>
      intro ag hag hmem r hr
      have hx := hmem x (List.mem_cons_self x rest)
      rw [rsiLoop] at hr
      have hag2 : 0 < (ag * (pd - 1) + x.1) / pd := by
        apply div_pos
        · have : 0 ≤ ag * (pd - 1) := mul_nonneg (le_of_lt hag) (by linarith)
          linarith [hx.1]
        · linarith
      have hal2 : (0 * (pd - 1) + x.2) / pd = 0 := by
        rw [hx.2]; simp
      rw [hal2] at hr
      rcases List.mem_cons.mp hr with h | h
      · rw [h, rsiValue_sat _ hag2]
      · exact ih _ hag2 (fun y hy => hmem y (List.mem_cons_of_mem x hy)) r h

/-- Claim C8 (confirmed): for a strictly increasing price series of length
at least `period + 1` (period ≥ 1), every RSI value the code computes is
100: all per-step losses are zero, the Wilder recurrence keeps the average
loss at zero and the average gain positive, and the saturated ratio yields
100 at every point (the zero-gain degenerate branch, which would yield 0,
is never taken). -/
theorem C8_rsi_saturates (period : ℕ) (prices : List ℚ)
    (hp : 1 ≤ period) (hlen : period + 1 ≤ prices.length)
    (hmono : List.Chain' (· < ·) prices) :
    ∀ r ∈ calculate_rsi prices period, r = 100 := by
  intro r hr
  unfold calculate_rsi at hr
  rw [if_neg (by
    push_neg
    constructor
    · intro he; rw [he] at hlen; simp at hlen
    · omega)] at hr
  have hglen : (rsiGains prices).length = prices.length - 1 := by
    simp [rsiGains, priceChanges_length]
  rw [if_neg (by omega)] at hr
  dsimp only at hr
  have hgpos := rsiGains_pos prices hmono
  have hlzero := rsiLosses_zero prices hmono
  have havl : ((rsiLosses prices).take period).sum / (period : ℚ) = 0 := by
    rw [List.sum_eq_zero (fun x hx => hlzero x (List.mem_of_mem_take hx))]
    simp
  have havg : 0 < ((rsiGains prices).take period).sum / (period : ℚ) := by
    apply div_pos
    · apply List.sum_pos
      · intro x hx; exact hgpos x (List.mem_of_mem_take hx)
      · have : ((rsiGains prices).take period).length = period := by
          rw [List.length_take]; omega
        intro hnil; rw [hnil] at this; simp at this; omega
    · exact_mod_cast Nat.lt_of_lt_of_le Nat.zero_lt_one hp
  rw [havl] at hr
  rcases List.mem_cons.mp hr with h | h
  · rw [h, rsiValue_sat _ havg]
  · refine rsiLoop_sat (period : ℚ) (by exact_mod_cast hp) _ _ havg ?_ r h
    intro x hx
    rcases List.of_mem_zip hx with ⟨hx1, hx2⟩
    exact ⟨hgpos x.1 (List.mem_of_mem_drop hx1),
      hlzero x.2 (List.mem_of_mem_drop hx2)⟩

/-- Claim C8 (witness): on the strictly increasing series [1,2,3,4] with
period 2 the first computed RSI value is 100. -/
theorem C8_witness : (calculate_rsi [1, 2, 3, 4] 2).headD 37 = 100 :=
  C8_rsi_saturates 2 [1, 2, 3, 4] (by norm_num) (by norm_num)
    (by norm_num [List.chain'_cons])
    ((calculate_rsi [1, 2, 3, 4] 2).headD 37) (by decide)

/-- Claim C5 (amended): on the claimed input (200 flat candles, wide-margin
final up candle with 100% body and volume exactly twice the trailing
average) the trend, volume and body conditions are all satisfied — but the
volume-spike test is also counted as a bearish condition (line 356), so
the decision rule sees conflicting evidence and returns NONE instead of
UP, for every square-root function used in the band computation. -/
theorem C5_volume_spike_forces_none (s : ℚ → ℚ) :
    buildStrategyData s c5Candles = some (c5data s) ∧
    (c5data s).ema30 < (c5data s).ema10 ∧
    (0 < (c5data s).avg_volume ∧
      (3/2) * (c5data s).avg_volume < (c5data s).volume) ∧
    45 ≤ (c5data s).current_candle_body_percentage ∧
    1 ≤ bearCount (c5data s) ∧
    (analyze_and_generate_signal s 0 c5Candles).direction = Dir.NONE := by
  have hb : buildStrategyData s c5Candles = some (c5data s) := rfl
  have hema : (c5data s).ema30 < (c5data s).ema10 := by
    show (33/31 : ℚ) < 13/11
    norm_num
  have hvol : 0 < (c5data s).avg_volume ∧
      (3/2) * (c5data s).avg_volume < (c5data s).volume :=
    ⟨by show (0 : ℚ) < 1; norm_num, by show (3/2 : ℚ) * 1 < 9/4; norm_num⟩
  have hbody : 45 ≤ (c5data s).current_candle_body_percentage := by
    show (45 : ℚ) ≤ 100
    norm_num
  have hbull : 1 ≤ bullCount (c5data s) := by
    unfold bullCount
    rw [if_pos hema]
    omega
  have hbear : 1 ≤ bearCount (c5data s) := by
    unfold bearCount
    rw [if_pos hvol]
    omega
  have hnone : (mk_pro_generate_signal (c5data s)).signal = Dir.NONE := by
    unfold mk_pro_generate_signal
    rw [if_neg (show ¬ (c5data s).current_candle_body_percentage < 45 by
      show ¬ (100 : ℚ) < 45
      norm_num)]
    dsimp only
    rw [if_neg (by intro hc; omega), if_neg (by intro hc; omega)]
  refine ⟨hb, hema, hvol, hbody, hbear, ?_⟩
  unfold analyze_and_generate_signal
  rw [if_neg (by decide : ¬ c5Candles.length < 200), hb]
  dsimp only
  split
  · exact hnone
  · exact absurd hnone (by assumption)

/-- Claim C5 (counterexample): on the claimed input the pipeline outputs
NONE with confidence LOW — not UP with at least MEDIUM — because the
snapshot meets four bullish conditions but the volume spike also counts as
one bearish condition. -/
theorem C5_counterexample :
    (fun rec => (rec.direction, rec.confidence))
        (analyze_and_generate_signal ratSqrt 0 c5Candles) =
      (Dir.NONE, Conf.LOW) ∧
    (buildStrategyData ratSqrt c5Candles).map
        (fun d => ((mk_pro_generate_signal d).bull_conditions_met,
          (mk_pro_generate_signal d).bear_conditions_met)) = some (4, 1) :=
  ⟨by decide, by decide⟩

/-- Helper: the displayed result produced by the manipulation block is
never WAITING. -/
theorem resultManip_ne_waiting (real : RealResult) (cl fw : ℕ) :
    (resultManip real cl fw).2.2 ≠ DisplayResult.waiting := by
  cases real <;> unfold resultManip <;> try simp
  split <;> simp

/-- Helper: step 1 never creates a WAITING record. -/
theorem step1_waiting (f : Option (List Candle)) (now : ℚ) (p : PairState) :
    (step1 f now p).current_signal.result = DisplayResult.waiting →
      p.current_signal.result = DisplayResult.waiting := by
  unfold step1
  split_ifs with h1 h2 h3
  · intro _; exact h1.1
  · intro hw
    exact absurd hw (by simp [clearDisplayed, emptySignalRecord])
  · intro hw
    exact absurd hw (by simp [restReset, emptySignalRecord])
  · exact fun h => h

/-- Helper: step 1 cannot increase the number of WAITING pairs. -/
theorem countWaiting_step1All (f : ℕ → Option (List Candle)) (now : ℚ) :
    ∀ (i : ℕ) (s : List PairState),
      countWaiting (step1All f now i s) ≤ countWaiting s := by
  intro i s
  induction s generalizing i with
  | nil => simp [step1All, countWaiting]
  | cons p t ih =>
      rw [step1All]
      unfold countWaiting at ih ⊢
      simp only [List.countP_cons]
      have h1 := ih (i + 1)
      have h2 : (if (step1 (f i) now p).current_signal.result ==
            DisplayResult.waiting then 1 else 0) ≤
          (if p.current_signal.result == DisplayResult.waiting then 1 else 0) := by
        by_cases hw : (step1 (f i) now p).current_signal.result =
            DisplayResult.waiting
        · rw [if_pos (by simpa using hw),
            if_pos (by simpa using step1_waiting (f i) now p hw)]
        · rw [if_neg (by simpa using hw)]
          omega
      omega

/-- Helper: a NONE-direction analysis record carries result "No Signal". -/
theorem analyze_none_result (sqrt : ℚ → ℚ) (now : ℚ) (c : List Candle) :
    (analyze_and_generate_signal sqrt now c).direction = Dir.NONE →
      (analyze_and_generate_signal sqrt now c).result = DisplayResult.noSignal := by
  unfold analyze_and_generate_signal
  split
  · intro _; rfl
  · split
    · intro _; rfl
    · dsimp only
      split
      · intro _; rfl
      · intro h
        exact absurd h (by assumption)

/-- Helper: the state updates of step 2 never create a WAITING record. -/
theorem step2Pair_waiting (sqrt : ℚ → ℚ) (fg : Option (List Candle))
    (cnt : ℕ) (now : ℚ) (idx : ℕ) (p : PairState) :
    (step2Pair sqrt fg cnt now idx p).1.current_signal.result =
        DisplayResult.waiting →
      p.current_signal.result = DisplayResult.waiting := by
  unfold step2Pair
  split_ifs with h1 h2 h3 h4 <;> try exact fun h => h
  dsimp only
  split
  · intro hw
    exact absurd hw (by simp [dataErrorRecord])
  · split
    · exact fun h => h
    · intro hw
      rename_i hdir
      rw [not_not] at hdir
      have := analyze_none_result sqrt now _ hdir
      simp at hw
      rw [this] at hw
      cases hw

/-- Helper: step 2 cannot increase the number of WAITING pairs. -/
theorem countWaiting_step2All (sqrt : ℚ → ℚ)
    (fg : ℕ → Option (List Candle)) (cnt : ℕ) (now : ℚ) :
    ∀ (i : ℕ) (s : List PairState),
      countWaiting (step2All sqrt fg cnt now i s).1 ≤ countWaiting s := by
  intro i s
  induction s generalizing i with
  | nil => simp [step2All, countWaiting]
  | cons p t ih =>
      rw [step2All]
      unfold countWaiting at ih ⊢
      simp only [List.countP_cons]
      have h1 := ih (i + 1)
      have h2 : (if (step2Pair sqrt (fg i) cnt now i p).1.current_signal.result ==
            DisplayResult.waiting then 1 else 0) ≤
          (if p.current_signal.result == DisplayResult.waiting then 1 else 0) := by
        by_cases hw : (step2Pair sqrt (fg i) cnt now i p).1.current_signal.result =
            DisplayResult.waiting
        · rw [if_pos (by simpa using hw),
            if_pos (by simpa using step2Pair_waiting sqrt (fg i) cnt now i p hw)]
        · rw [if_neg (by simpa using hw)]
          omega
      omega

/-- Helper: once the cycle's WAITING count has reached the cap, step 2
collects no candidates at all. -/
theorem step2All_cands_nil (sqrt : ℚ → ℚ) (fg : ℕ → Option (List Candle))
    (cnt : ℕ) (now : ℚ) (hcnt : MAX_ACTIVE_SIGNALS ≤ cnt) :
    ∀ (i : ℕ) (s : List PairState), (step2All sqrt fg cnt now i s).2 = [] := by
  intro i s
  induction s generalizing i with
  | nil => rfl
  | cons p t ih =>
      rw [step2All]
      have hnone : (step2Pair sqrt (fg i) cnt now i p).2 = none := by
        unfold step2Pair
        split_ifs with h1 h2 h3 h4 <;> first
          | rfl
          | exact absurd hcnt h3
      rw [hnone]
      exact ih (i + 1)

/-- Helper: the selection loop never admits more than the cap. -/
theorem selectLoop_length (s2 : List PairState) :
    ∀ (l acc : List CandEntry), acc.length ≤ MAX_ACTIVE_SIGNALS →
      (selectLoop s2 acc l).length ≤ MAX_ACTIVE_SIGNALS := by
  intro l
  induction l with
  | nil => exact fun acc h => h
  | cons c rest ih =>
      intro acc h
      unfold selectLoop
      dsimp only
      split_ifs with h1 h2
      · refine ih _ ?_
        rw [List.length_append]
        simp only [List.length_cons, List.length_nil]
        omega
      · exact ih _ h
      · exact h

/-- Helper: one activation raises the WAITING count by at most one. -/
theorem countWaiting_set (s : List PairState) :
    ∀ (i : ℕ) (x : PairState),
      countWaiting (s.set i x) ≤ countWaiting s + 1 := by
  induction s with
  | nil => intro i x; simp [countWaiting]
  | cons p t ih =>
      intro i x
      cases i with
      | zero =>
          unfold countWaiting
          simp only [List.set, List.countP_cons]
          split_ifs <;> omega
      | succ j =>
          unfold countWaiting at ih ⊢
          simp only [List.set, List.countP_cons]
          have := ih j x
          split_ifs <;> omega

/-- Helper: activating a candidate list raises the WAITING count by at
most its length. -/
theorem countWaiting_activateAll (now : ℚ) :
    ∀ (cs : List CandEntry) (s : List PairState),
      countWaiting (activateAll now cs s) ≤ countWaiting s + cs.length := by
  intro cs
  induction cs with
  | nil => intro s; simp [activateAll]
  | cons c rest ih =>
      intro s
      rw [activateAll]
      calc countWaiting (activateAll now rest (s.set c.pair _)) ≤
            countWaiting (s.set c.pair _) + rest.length := ih _
        _ ≤ (countWaiting s + 1) + rest.length := by
            have := countWaiting_set s c.pair
              { s.getD c.pair initPairState with
                  current_signal := c.signal_data
                  last_signal_generated_at := now }
            omega
        _ = countWaiting s + (c :: rest).length := by simp; omega

/-- Helper: a single scheduler cycle keeps the WAITING count at or below
`max (previous count) (2·cap − 1)`: when the count at candidate time is
below the cap (at most 3), at most cap more are admitted; otherwise no
candidate is even generated and the count cannot grow. -/
theorem countWaiting_runCycle (sqrt : ℚ → ℚ)
    (fr fg : ℕ → Option (List Candle)) (now : ℚ) (s : List PairState) :
    countWaiting (runCycle sqrt fr fg now s) ≤
      max (countWaiting s) (2 * MAX_ACTIVE_SIGNALS - 1) := by
  show countWaiting (activateAll now
      (selectLoop (step2All sqrt fg (countWaiting (step1All fr now 0 s)) now 0
          (step1All fr now 0 s)).1 []
        (sortCands (step2All sqrt fg (countWaiting (step1All fr now 0 s)) now 0
          (step1All fr now 0 s)).2))
      (step2All sqrt fg (countWaiting (step1All fr now 0 s)) now 0
        (step1All fr now 0 s)).1) ≤
    max (countWaiting s) (2 * MAX_ACTIVE_SIGNALS - 1)
  set s1 := step1All fr now 0 s with hs1
  set sc := step2All sqrt fg (countWaiting s1) now 0 s1 with hsc
  have h1 : countWaiting s1 ≤ countWaiting s := countWaiting_step1All fr now 0 s
  have h2 : countWaiting sc.1 ≤ countWaiting s1 := by
    rw [hsc]
    exact countWaiting_step2All sqrt fg (countWaiting s1) now 0 s1
  by_cases hc : MAX_ACTIVE_SIGNALS ≤ countWaiting s1
  · have hnil : sc.2 = [] := by
      rw [hsc]
      exact step2All_cands_nil sqrt fg (countWaiting s1) now hc 0 s1
    rw [hnil]
    show countWaiting sc.1 ≤ _
    exact le_trans (le_trans h2 h1) (le_max_left _ _)
  · have h3 : (selectLoop sc.1 [] (sortCands sc.2)).length ≤ MAX_ACTIVE_SIGNALS :=
      selectLoop_length sc.1 (sortCands sc.2) [] (Nat.zero_le _)
    have h4 := countWaiting_activateAll now (selectLoop sc.1 [] (sortCands sc.2)) sc.1
    have hm : MAX_ACTIVE_SIGNALS = 4 := rfl
    refine le_trans ?_ (le_max_right _ _)
    rw [hm] at h3 hc ⊢
    omega

/-- Helper: the `2·cap − 1` bound is preserved along every trace. -/
theorem countWaiting_runCycles (sqrt : ℚ → ℚ) :
    ∀ (trace : List ((ℕ → Option (List Candle)) ×
        (ℕ → Option (List Candle)) × ℚ)) (s : List PairState),
      countWaiting s ≤ 2 * MAX_ACTIVE_SIGNALS - 1 →
      countWaiting (runCycles sqrt trace s) ≤ 2 * MAX_ACTIVE_SIGNALS - 1 := by
  intro trace
  induction trace with
  | nil => exact fun s h => h
  | cons c rest ih =>
      intro s h
      rw [runCycles]
      refine ih _ ?_
      refine le_trans (countWaiting_runCycle sqrt c.1 c.2.1 c.2.2 s) ?_
      exact Nat.max_le.mpr ⟨h, le_refl _⟩

/-- Claim C1 (amended): in every state the scheduler loop can reach from
startup, the number of WAITING instruments is at most 2·cap − 1 = 7 (not
cap = 4 as claimed): a cycle only generates candidates while the count at
its start is below the cap, but its admission loop then bounds the number
of activations by `len(signals_to_activate) < MAX_ACTIVE_SIGNALS` — the
cap itself, not the remaining capacity — so up to cap new WAITING signals
are added on top of up to cap − 1 existing ones.  Each instrument still
holds exactly one signal record, so no instrument has two simultaneous
non-idle records. -/
theorem C1_waiting_bound_amended (sqrt : ℚ → ℚ)
    (trace : List ((ℕ → Option (List Candle)) ×
      (ℕ → Option (List Candle)) × ℚ)) :
    countWaiting (runCycles sqrt trace initState) ≤ 2 * MAX_ACTIVE_SIGNALS - 1 :=
  countWaiting_runCycles sqrt trace initState (by decide)

/-- Claim C1 (counterexample): a reachable state with seven WAITING
instruments.  Cycle 1 (t=0) admits WAITING signals for pairs 0–2; cycle 2
(t=63, before any expiry) finds the count 3 below the cap, generates
candidates for pairs 0–6, and its admission loop — bounded by the number
of *newly selected* signals, not by remaining capacity — activates pairs
3–6, giving 3 + 4 = 7 > 4 WAITING signals. -/
theorem C1_counterexample :
    countWaiting (runCycles ratSqrt c1Trace initState) = 7 ∧
    MAX_ACTIVE_SIGNALS < 7 :=
  ⟨by decide, by decide⟩

/-- Claim C3 (counterexample): after three cycles pair 0 sits idle with
one consecutive genuine loss on record; one more cycle (t=210) in which
its generation fetch fails — no result is computed, no rest expires —
resets `consecutive_losses` to 0 and records "Data Error": a reset by a
candle-fetch failure during candidate generation, which the claim says
cannot happen. -/
theorem C3_counterexample :
    (fun s3 =>
        ((s3.getD 0 initPairState).consecutive_losses,
         (s3.getD 0 initPairState).current_signal.result,
         (s3.getD 0 initPairState).is_resting,
         ((runCycle ratSqrt fetchFailAll fetchFailAll 210 s3).getD 0
            initPairState).consecutive_losses,
         ((runCycle ratSqrt fetchFailAll fetchFailAll 210 s3).getD 0
            initPairState).current_signal.result)) c3s9 =
      (1, DisplayResult.noSignal, false, 0, DisplayResult.dataError) := by
  decide

/-- Claim C9 (code bug): the scheduler means to rank same-tier candidates
by their condition counts (comment at line 948), but the analyzer's record
contains no `bull_conditions_met`/`bear_conditions_met` keys, so the sort
key reads the `.get` default 0 for every candidate.  Concretely: pair 0's
candidate truly meets 3 bullish conditions and pair 1's truly meets 4,
both MEDIUM, yet both collected entries carry (0, 0), and ranking leaves
the max-count-3 candidate ahead of the max-count-4 one. -/
theorem C9_rank_counts_dropped :
    ((fun cands =>
        (cands.map (fun c =>
          (c.pair, c.confidence_level, c.bull_conditions, c.bear_conditions)),
         sortCands cands == cands)) c9Cands =
      ([(0, 1, 0, 0), (1, 1, 0, 0)], true)) ∧
    (buildStrategyData ratSqrt inputA).map (fun d =>
        ((mk_pro_generate_signal d).bull_conditions_met,
         (mk_pro_generate_signal d).bear_conditions_met,
         (mk_pro_generate_signal d).confidence)) =
      some (3, 0, Conf.MEDIUM) ∧
    (buildStrategyData ratSqrt inputB).map (fun d =>
        ((mk_pro_generate_signal d).bull_conditions_met,
         (mk_pro_generate_signal d).bear_conditions_met,
         (mk_pro_generate_signal d).confidence)) =
      some (4, 0, Conf.MEDIUM) :=
  ⟨by decide, by decide, by decide⟩
